import Mathlib

/-!
Shallow embedding of `helm-learning/deploy.sh`.

The script sequences `kind` / `kubectl` / `helm` CLI calls.  We model the
external world as a state `St` (existing kind clusters, current kubectl
context, namespaces and helm releases per cluster, presence of the three
prerequisite binaries) plus failure injection for the external mutating
commands (`kind create cluster`, `helm install/upgrade/uninstall`), which
lets us express `set -e` abort semantics (line 6 of the script): a failing
command stops the whole script with that command's exit status.

Each modelled function returns the list of externally visible events it
emits (CLI requests, plus step markers delimiting the four deploy phases),
the updated external state, and an abort/exit status.
-/

namespace DeploySh

/-- The four phases of `deploy_environment` (lines 38-92 of deploy.sh). -/
inductive StepKind where
  | ensureCluster
  | switchContext
  | ensureNamespace
  | installOrUpgrade
deriving DecidableEq, Repr

/-- Externally visible CLI requests issued by the script. -/
inductive Eff where
  | listClusters
  | createCluster (name : String)
  | useContext (ctx : String)
  | getNamespace (ns : String)
  | createNamespace (ns : String)
  | listReleases (ns : String)
  | install (rel : String) (values : String) (ns : String) (wait : Bool)
  | upgrade (rel : String) (values : String) (ns : String) (wait : Bool)
  | uninstall (rel : String) (ns : String)
  | kubectlGet (resource : String) (ns : String) (env : String)
deriving DecidableEq, Repr

/-- Trace events: a CLI effect, or a marker that a deploy phase begins. -/
inductive Ev where
  | eff (e : Eff)
  | step (k : StepKind) (env : String)
deriving DecidableEq, Repr

/-- External state seen by the script, plus failure injection.
`clusters` is the set of kind clusters (`kind get clusters`); `current` is
the cluster selected by the current kubectl context (context string is
`"kind-" ++ name`); `namespaces` and `releases` are keyed by the cluster
they live in, since kubectl/helm are scoped by the current context.
A cluster name in `createFails` makes `kind create cluster` exit with
`failCode`; a release name in `relFails` does the same for
`helm install/upgrade/uninstall`. -/
structure St where
  clusters : List String
  current : Option String
  namespaces : List (String × String)
  releases : List (String × String × String)
  hasHelm : Bool
  hasKind : Bool
  hasKubectl : Bool
  createFails : List String
  relFails : List String
  failCode : Nat
deriving DecidableEq, Repr

/-- The cluster targeted by the current kubectl context (`""` if none). -/
def curCluster (s : St) : String := s.current.getD ""

/-- Release name used by the script: `echo-server-${ENV}`. -/
def releaseName (env : String) : String := "echo-server-" ++ env

/-- Result of running a script fragment under `set -e`: emitted events,
updated state, and `some code` when a command failed and aborted the
script with exit status `code`. -/
structure Run where
  trace : List Ev
  st : St
  err : Option Nat
deriving DecidableEq, Repr

/-- `cluster_exists` (lines 28-30): `kind get clusters | grep -q "^$1$"`.
Pure read; returns the emitted event together with the answer. -/
def cluster_exists (s : St) (name : String) : List Ev × Bool :=
  ([.eff .listClusters], name ∈ s.clusters)

/-- Lines 47-53 of `deploy_environment`: check `cluster_exists`, and
`kind create cluster --name $CLUSTER_NAME` when absent. -/
def ensureClusterStep (s : St) (cluster : String) : Run :=
  let (t, b) := cluster_exists s cluster
  if b then ⟨t, s, none⟩
  else if cluster ∈ s.createFails then
    ⟨t ++ [.eff (.createCluster cluster)], s, some s.failCode⟩
  else
    ⟨t ++ [.eff (.createCluster cluster)],
      { s with clusters := cluster :: s.clusters }, none⟩

/-- Lines 56-57: `kubectl config use-context "kind-${CLUSTER_NAME}"`.
The context of a kind cluster always exists alongside the cluster, so the
switch succeeds in every reachable call site. -/
def switchContextStep (s : St) (cluster : String) : List Ev × St :=
  ([.eff (.useContext ("kind-" ++ cluster))], { s with current := some cluster })

/-- Lines 59-65: `kubectl get namespace` and `kubectl create namespace`
when absent, both scoped to the current context's cluster. -/
def ensureNamespaceStep (s : St) (ns : String) : List Ev × St :=
  if (curCluster s, ns) ∈ s.namespaces then
    ([.eff (.getNamespace ns)], s)
  else
    ([.eff (.getNamespace ns), .eff (.createNamespace ns)],
      { s with namespaces := (curCluster s, ns) :: s.namespaces })

/-- Lines 67-82: `helm list -n NS | grep -q echo-server-ENV`, then
`helm upgrade` when found, `helm install` otherwise, both with
`-f $VALUES_FILE --namespace $NAMESPACE --wait`.  (The grep is a substring
match over the `helm list` table; every release name the script manages is
the exact string `echo-server-ENV`, so membership is the faithful reading.) -/
def installOrUpgradeStep (s : St) (env values ns : String) : Run :=
  let rel := releaseName env
  if (curCluster s, ns, rel) ∈ s.releases then
    if rel ∈ s.relFails then
      ⟨[.eff (.listReleases ns), .eff (.upgrade rel values ns true)], s, some s.failCode⟩
    else
      ⟨[.eff (.listReleases ns), .eff (.upgrade rel values ns true)], s, none⟩
  else
    if rel ∈ s.relFails then
      ⟨[.eff (.listReleases ns), .eff (.install rel values ns true)], s, some s.failCode⟩
    else
      ⟨[.eff (.listReleases ns), .eff (.install rel values ns true)],
        { s with releases := (curCluster s, ns, rel) :: s.releases }, none⟩

/-- Lines 84-91: `kubectl get deployments/pods/services` (read-only). -/
def displayStatus (ns env : String) : List Ev :=
  [.eff (.kubectlGet "deployments" ns env),
   .eff (.kubectlGet "pods" ns env),
   .eff (.kubectlGet "services" ns env)]

/-- `deploy_environment ENV CLUSTER_NAME VALUES_FILE NAMESPACE`
(lines 38-92): the four phases in order, aborting at the first failing
command (`set -e`). -/
def deploy_environment (s : St) (env cluster values ns : String) : Run :=
  let r1 := ensureClusterStep s cluster
  let t1 := Ev.step .ensureCluster env :: r1.trace
  match r1.err with
  | some c => ⟨t1, r1.st, some c⟩
  | none =>
    let (t2, s2) := switchContextStep r1.st cluster
    let (t3, s3) := ensureNamespaceStep s2 ns
    let r4 := installOrUpgradeStep s3 env values ns
    let pre := t1 ++ (Ev.step .switchContext env :: t2)
      ++ (Ev.step .ensureNamespace env :: t3)
      ++ (Ev.step .installOrUpgrade env :: r4.trace)
    match r4.err with
    | some c => ⟨pre, r4.st, some c⟩
    | none => ⟨pre ++ displayStatus ns env, r4.st, none⟩

/-- Per-environment report printed by `show_status`: environment name,
whether the cluster exists, whether the release was found. -/
abbrev StatusReport := List (String × Bool × Bool)

/-- One iteration of the `show_status` loop (lines 124-144). -/
def statusOneEnv (s : St) (env : String) : List Ev × St × (String × Bool × Bool) :=
  let cluster := "nur-" ++ env
  let (t0, b) := cluster_exists s cluster
  if b then
    let (t1, s1) := switchContextStep s cluster
    if (curCluster s1, env, releaseName env) ∈ s1.releases then
      (t0 ++ t1 ++ [.eff (.listReleases env), .eff (.listReleases env),
        .eff (.kubectlGet "pods" env env)], s1, (env, true, true))
    else
      (t0 ++ t1 ++ [.eff (.listReleases env)], s1, (env, true, false))
  else
    (t0, s, (env, false, false))

/-- `show_status` (lines 120-145): loop over dev then prd. -/
def show_status (s : St) : List Ev × St × StatusReport :=
  let (t1, s1, r1) := statusOneEnv s "dev"
  let (t2, s2, r2) := statusOneEnv s1 "prd"
  (t1 ++ t2, s2, [r1, r2])

/-- Outcome of one iteration of the `clean_deployments` loop. -/
inductive CleanOutcome where
  | uninstalled
  | skippedNoRelease
  | skippedNoCluster
  | failed
deriving DecidableEq, Repr

/-- One iteration of the `clean_deployments` loop (lines 151-166):
skip silently when the cluster is absent; otherwise switch context,
check `helm list`, and `helm uninstall` only when the release is found. -/
def cleanOneEnv (s : St) (env : String) : Run × CleanOutcome :=
  let cluster := "nur-" ++ env
  let rel := releaseName env
  let (t0, b) := cluster_exists s cluster
  if b then
    let (t1, s1) := switchContextStep s cluster
    if (curCluster s1, env, rel) ∈ s1.releases then
      if rel ∈ s1.relFails then
        (⟨t0 ++ t1 ++ [.eff (.listReleases env), .eff (.uninstall rel env)],
          s1, some s1.failCode⟩, .failed)
      else
        (⟨t0 ++ t1 ++ [.eff (.listReleases env), .eff (.uninstall rel env)],
          { s1 with releases := s1.releases.erase (curCluster s1, env, rel) },
          none⟩, .uninstalled)
    else
      (⟨t0 ++ t1 ++ [.eff (.listReleases env)], s1, none⟩, .skippedNoRelease)
  else
    (⟨t0, s, none⟩, .skippedNoCluster)

/-- `clean_deployments` (lines 148-169): dev then prd, aborting on a
failing `helm uninstall` (`set -e`). -/
def clean_deployments (s : St) : Run :=
  let (r1, _) := cleanOneEnv s "dev"
  match r1.err with
  | some c => ⟨r1.trace, r1.st, some c⟩
  | none =>
    let (r2, _) := cleanOneEnv r1.st "prd"
    ⟨r1.trace ++ r2.trace, r2.st, r2.err⟩

/-- Result of the whole script: trace, final state, process exit status. -/
structure MainRun where
  trace : List Ev
  st : St
  exit : Nat
deriving DecidableEq, Repr

/-- All three prerequisite binaries are installed (lines 173-189). -/
def prereqOk (s : St) : Bool := s.hasHelm && s.hasKind && s.hasKubectl

/-- `main "$@"` (lines 172-224): prerequisite checks (each `exit 1`),
then the `case "${1:-help}"` dispatch.  An aborted deploy/clean exits with
the failing command's status (`set -e`); `help` and unknown options only
print (unknown exits 1). -/
def main (arg : String) (s : St) : MainRun :=
  if !s.hasHelm then ⟨[], s, 1⟩
  else if !s.hasKind then ⟨[], s, 1⟩
  else if !s.hasKubectl then ⟨[], s, 1⟩
  else if arg = "dev" then
    let r := deploy_environment s "dev" "nur-dev" "values-dev.yaml" "dev"
    ⟨r.trace, r.st, r.err.getD 0⟩
  else if arg = "prd" then
    let r := deploy_environment s "prd" "nur-prd" "values-prd.yaml" "prd"
    ⟨r.trace, r.st, r.err.getD 0⟩
  else if arg = "all" then
    let r1 := deploy_environment s "dev" "nur-dev" "values-dev.yaml" "dev"
    match r1.err with
    | some c => ⟨r1.trace, r1.st, c⟩
    | none =>
      let r2 := deploy_environment r1.st "prd" "nur-prd" "values-prd.yaml" "prd"
      ⟨r1.trace ++ r2.trace, r2.st, r2.err.getD 0⟩
  else if arg = "status" then
    let (t, s1, _) := show_status s
    ⟨t, s1, 0⟩
  else if arg = "clean" then
    let r := clean_deployments s
    ⟨r.trace, r.st, r.err.getD 0⟩
  else if arg = "help" ∨ arg = "--help" ∨ arg = "-h" ∨ arg = "" then
    ⟨[], s, 0⟩
  else
    ⟨[], s, 1⟩

/-- Step markers occurring in a trace, in order. -/
def stepsOf (t : List Ev) : List (StepKind × String) :=
  t.filterMap fun e => match e with
    | .step k env => some (k, env)
    | .eff _ => none

/-- The fixed per-environment step sequence of an Install-mode deploy. -/
def envPlan (env : String) : List (StepKind × String) :=
  [(.ensureCluster, env), (.switchContext, env),
   (.ensureNamespace, env), (.installOrUpgrade, env)]

/-- The step sequence the script's case dispatch commits to for each
deploy command, independent of external state. -/
def planSteps (arg : String) : List (StepKind × String) :=
  if arg = "dev" then envPlan "dev"
  else if arg = "prd" then envPlan "prd"
  else if arg = "all" then envPlan "dev" ++ envPlan "prd"
  else []

/-- The `set -e` abort status of the command body `main` dispatches to
(mirroring the `case` at lines 191-220): `some c` when a step command of
that body failed with exit status `c`, `none` when the body ran to
completion (`status`, `help` and unknown arguments never fail). -/
def bodyErr (arg : String) (s : St) : Option Nat :=
  if arg = "dev" then
    (deploy_environment s "dev" "nur-dev" "values-dev.yaml" "dev").err
  else if arg = "prd" then
    (deploy_environment s "prd" "nur-prd" "values-prd.yaml" "prd").err
  else if arg = "all" then
    let r1 := deploy_environment s "dev" "nur-dev" "values-dev.yaml" "dev"
    match r1.err with
    | some c => some c
    | none => (deploy_environment r1.st "prd" "nur-prd" "values-prd.yaml" "prd").err
  else if arg = "clean" then (clean_deployments s).err
  else none

/-- An effect that mutates external state (everything except the reads
and the context switch). -/
def mutating : Eff → Bool
  | .createCluster _ => true
  | .createNamespace _ => true
  | .install _ _ _ _ => true
  | .upgrade _ _ _ _ => true
  | .uninstall _ _ => true
  | _ => false

/-- A trace event is a mutating CLI request. -/
def mutatingEv : Ev → Bool
  | .eff e => mutating e
  | .step _ _ => false

/-- Empty world with all prerequisites installed and no injected failures. -/
def stEmpty : St :=
  { clusters := [], current := none, namespaces := [], releases := [],
    hasHelm := true, hasKind := true, hasKubectl := true,
    createFails := [], relFails := [], failCode := 1 }

/-- World where only the dev cluster exists. -/
def sDevOnly : St := { stEmpty with clusters := ["nur-dev"] }

/-- World where creating the dev cluster fails (exit status 1). -/
def sDevCreateFail : St := { stEmpty with createFails := ["nur-dev"] }

/-- World without helm installed. -/
def sNoHelm : St := { stEmpty with hasHelm := false }

/-- World where creating the dev cluster fails with exit status 3. -/
def sFail3 : St := { stEmpty with createFails := ["nur-dev"], failCode := 3 }

@[simp] lemma stepsOf_nil : stepsOf [] = [] := rfl

@[simp] lemma stepsOf_cons_eff (e : Eff) (t : List Ev) :
    stepsOf (.eff e :: t) = stepsOf t := by
  simp [stepsOf]

@[simp] lemma stepsOf_cons_step (k : StepKind) (env : String) (t : List Ev) :
    stepsOf (.step k env :: t) = (k, env) :: stepsOf t := by
  simp [stepsOf]

@[simp] lemma stepsOf_append (a b : List Ev) :
    stepsOf (a ++ b) = stepsOf a ++ stepsOf b := by
  simp [stepsOf, List.filterMap_append]

lemma mem_stepsOf_of_mem {k : StepKind} {e : String} {t : List Ev}
    (h : Ev.step k e ∈ t) : (k, e) ∈ stepsOf t := by
  simp only [stepsOf, List.mem_filterMap]
  exact ⟨.step k e, h, rfl⟩

lemma ensureClusterStep_err_none (s : St) (cluster : String)
    (hc : s.createFails = []) : (ensureClusterStep s cluster).err = none := by
  simp only [ensureClusterStep, cluster_exists]
  split_ifs <;> simp [hc] at *

lemma stepsOf_ensureClusterStep (s : St) (cluster : String) :
    stepsOf (ensureClusterStep s cluster).trace = [] := by
  simp only [ensureClusterStep, cluster_exists]
  split_ifs <;> simp

lemma installOrUpgradeStep_err_none (s : St) (env values ns : String)
    (hr : s.relFails = []) : (installOrUpgradeStep s env values ns).err = none := by
  simp only [installOrUpgradeStep]
  split_ifs <;> simp [hr] at *

lemma stepsOf_installOrUpgradeStep (s : St) (env values ns : String) :
    stepsOf (installOrUpgradeStep s env values ns).trace = [] := by
  simp only [installOrUpgradeStep]
  split_ifs <;> simp

lemma stepsOf_switchContextStep (s : St) (cluster : String) :
    stepsOf (switchContextStep s cluster).1 = [] := rfl

lemma stepsOf_ensureNamespaceStep (s : St) (ns : String) :
    stepsOf (ensureNamespaceStep s ns).1 = [] := by
  unfold ensureNamespaceStep
  split <;> simp

lemma stepsOf_displayStatus (ns env : String) :
    stepsOf (displayStatus ns env) = [] := rfl

lemma deploy_stepsOf_noFail (s : St) (env cluster values ns : String)
    (hc : s.createFails = []) (hr : s.relFails = []) :
    stepsOf (deploy_environment s env cluster values ns).trace = envPlan env := by
  simp only [deploy_environment]
  rw [ensureClusterStep_err_none s cluster hc]
  have hr' : (ensureNamespaceStep (switchContextStep (ensureClusterStep s cluster).st
      cluster).2 ns).2.relFails = s.relFails := by
    simp only [ensureClusterStep, cluster_exists, switchContextStep, ensureNamespaceStep]
    split_ifs <;> rfl
  rw [installOrUpgradeStep_err_none _ _ _ _ (hr' ▸ hr)]
  simp [stepsOf_ensureClusterStep, stepsOf_switchContextStep,
    stepsOf_ensureNamespaceStep, stepsOf_installOrUpgradeStep,
    stepsOf_displayStatus, envPlan]

lemma deploy_err_noFail (s : St) (env cluster values ns : String)
    (hc : s.createFails = []) (hr : s.relFails = []) :
    (deploy_environment s env cluster values ns).err = none := by
  simp only [deploy_environment]
  rw [ensureClusterStep_err_none s cluster hc]
  have hr' : (ensureNamespaceStep (switchContextStep (ensureClusterStep s cluster).st
      cluster).2 ns).2.relFails = s.relFails := by
    simp only [ensureClusterStep, cluster_exists, switchContextStep, ensureNamespaceStep]
    split_ifs <;> rfl
  rw [installOrUpgradeStep_err_none _ _ _ _ (hr' ▸ hr)]

/-- The failure-injection configuration of a state (never changed by the
script; only the external world changes). -/
def cfg (s : St) : List String × List String × Nat :=
  (s.createFails, s.relFails, s.failCode)

lemma cfg_ensureClusterStep (s : St) (cluster : String) :
    cfg (ensureClusterStep s cluster).st = cfg s := by
  simp only [ensureClusterStep, cluster_exists]
  split_ifs <;> rfl

lemma cfg_switchContextStep (s : St) (cluster : String) :
    cfg (switchContextStep s cluster).2 = cfg s := rfl

lemma cfg_ensureNamespaceStep (s : St) (ns : String) :
    cfg (ensureNamespaceStep s ns).2 = cfg s := by
  simp only [ensureNamespaceStep]
  split_ifs <;> rfl

lemma cfg_installOrUpgradeStep (s : St) (env values ns : String) :
    cfg (installOrUpgradeStep s env values ns).st = cfg s := by
  simp only [installOrUpgradeStep]
  split_ifs <;> rfl

lemma ensureClusterStep_err_cases (s : St) (cluster : String) :
    (ensureClusterStep s cluster).err = none ∨
    (ensureClusterStep s cluster).err = some s.failCode := by
  simp only [ensureClusterStep, cluster_exists]
  split_ifs <;> simp

lemma installOrUpgradeStep_err_cases (s : St) (env values ns : String) :
    (installOrUpgradeStep s env values ns).err = none ∨
    (installOrUpgradeStep s env values ns).err = some s.failCode := by
  simp only [installOrUpgradeStep]
  split_ifs <;> simp

lemma cfg_deploy (s : St) (env cluster values ns : String) :
    cfg (deploy_environment s env cluster values ns).st = cfg s := by
  simp only [deploy_environment]
  cases h1 : (ensureClusterStep s cluster).err with
  | some c => simpa using cfg_ensureClusterStep s cluster
  | none =>
    cases h4 : (installOrUpgradeStep (ensureNamespaceStep (switchContextStep
        (ensureClusterStep s cluster).st cluster).2 ns).2 env values ns).err <;>
      simp only [] <;>
      rw [cfg_installOrUpgradeStep, cfg_ensureNamespaceStep,
        cfg_switchContextStep, cfg_ensureClusterStep]

lemma deploy_stepsOf_cases (s : St) (env cluster values ns : String) :
    stepsOf (deploy_environment s env cluster values ns).trace =
      [(.ensureCluster, env)] ∨
    stepsOf (deploy_environment s env cluster values ns).trace = envPlan env := by
  simp only [deploy_environment]
  cases h1 : (ensureClusterStep s cluster).err with
  | some c =>
    left
    simp [stepsOf_ensureClusterStep]
  | none =>
    right
    cases h4 : (installOrUpgradeStep (ensureNamespaceStep (switchContextStep
        (ensureClusterStep s cluster).st cluster).2 ns).2 env values ns).err <;>
      simp [stepsOf_ensureClusterStep, stepsOf_switchContextStep,
        stepsOf_ensureNamespaceStep, stepsOf_installOrUpgradeStep,
        stepsOf_displayStatus, envPlan]

lemma deploy_err_cases (s : St) (env cluster values ns : String) :
    (deploy_environment s env cluster values ns).err = none ∨
    (deploy_environment s env cluster values ns).err = some s.failCode := by
  simp only [deploy_environment]
  cases h1 : (ensureClusterStep s cluster).err with
  | some c =>
    rcases ensureClusterStep_err_cases s cluster with h | h <;> rw [h1] at h
    · exact absurd h (by simp)
    · right
      simpa using h
  | none =>
    cases h4 : (installOrUpgradeStep (ensureNamespaceStep (switchContextStep
        (ensureClusterStep s cluster).st cluster).2 ns).2 env values ns).err with
    | none => left; simp
    | some c =>
      right
      rcases installOrUpgradeStep_err_cases (ensureNamespaceStep (switchContextStep
          (ensureClusterStep s cluster).st cluster).2 ns).2 env values ns with h | h <;>
        rw [h4] at h
      · exact absurd h (by simp)
      · have hcfg : cfg (ensureNamespaceStep (switchContextStep
            (ensureClusterStep s cluster).st cluster).2 ns).2 = cfg s := by
          rw [cfg_ensureNamespaceStep, cfg_switchContextStep, cfg_ensureClusterStep]
        have hfc : (ensureNamespaceStep (switchContextStep
            (ensureClusterStep s cluster).st cluster).2 ns).2.failCode = s.failCode := by
          have := congrArg (fun p => p.2.2) hcfg
          simpa [cfg] using this
        simp only [Option.some.injEq] at h
        simp [h, hfc]

lemma deploy_step_env (s : St) (env cluster values ns : String)
    {k : StepKind} {e : String}
    (h : Ev.step k e ∈ (deploy_environment s env cluster values ns).trace) :
    e = env := by
  have hm := mem_stepsOf_of_mem h
  rcases deploy_stepsOf_cases s env cluster values ns with hc | hc <;>
    rw [hc] at hm <;> simp [envPlan] at hm <;> tauto

lemma main_prereq_missing (arg : String) (s : St)
    (h : s.hasHelm = false ∨ s.hasKind = false ∨ s.hasKubectl = false) :
    main arg s = ⟨[], s, 1⟩ := by
  cases hh : s.hasHelm <;> cases hk : s.hasKind <;> cases hc : s.hasKubectl <;>
    simp_all [main]

lemma main_steps_plan (arg : String) (s : St)
    (ha : arg = "dev" ∨ arg = "prd" ∨ arg = "all")
    (hp : prereqOk s = true)
    (hc : s.createFails = []) (hr : s.relFails = []) :
    stepsOf (main arg s).trace = planSteps arg ∧ (main arg s).exit = 0 := by
  simp only [prereqOk, Bool.and_eq_true] at hp
  obtain ⟨⟨h1, h2⟩, h3⟩ := hp
  have hc2 : (deploy_environment s "dev" "nur-dev" "values-dev.yaml" "dev").st.createFails = []
      := by
    have := congrArg (fun p => p.1) (cfg_deploy s "dev" "nur-dev" "values-dev.yaml" "dev")
    simpa [cfg, hc] using this
  have hr2 : (deploy_environment s "dev" "nur-dev" "values-dev.yaml" "dev").st.relFails = []
      := by
    have := congrArg (fun p => p.2.1) (cfg_deploy s "dev" "nur-dev" "values-dev.yaml" "dev")
    simpa [cfg, hr] using this
  rcases ha with ha | ha | ha <;> subst ha <;>
    simp only [main, h1, h2, h3, Bool.not_true, Bool.false_eq_true, if_false,
      reduceIte, planSteps]
  · simp [deploy_stepsOf_noFail s "dev" _ _ _ hc hr,
      deploy_err_noFail s "dev" _ _ _ hc hr, envPlan]
  · simp [deploy_stepsOf_noFail s "prd" _ _ _ hc hr,
      deploy_err_noFail s "prd" _ _ _ hc hr, envPlan]
  · rw [deploy_err_noFail s "dev" _ _ _ hc hr]
    simp [deploy_stepsOf_noFail s "dev" _ _ _ hc hr,
      deploy_stepsOf_noFail _ "prd" _ _ _ hc2 hr2,
      deploy_err_noFail _ "prd" _ _ _ hc2 hr2]

/-- Claim C2: for every environment deployed in Install mode, the steps
execute in exactly the fixed order EnsureCluster, SwitchContext,
EnsureNamespace, InstallOrUpgrade (here absent injected collaborator
failures, which under `set -e` truncate rather than reorder). -/
theorem deploy_install_step_order (s : St) (env cluster values ns : String)
    (hc : s.createFails = []) (hr : s.relFails = []) :
    stepsOf (deploy_environment s env cluster values ns).trace =
      [(.ensureCluster, env), (.switchContext, env),
       (.ensureNamespace, env), (.installOrUpgrade, env)] := by
  rw [deploy_stepsOf_noFail s env cluster values ns hc hr]; rfl

/-- Claim C2, witness: concrete run in the empty world. -/
theorem deploy_install_step_order_witness :
    stEmpty.createFails = [] ∧ stEmpty.relFails = [] ∧
    stepsOf (deploy_environment stEmpty "dev" "nur-dev" "values-dev.yaml" "dev").trace =
      [(.ensureCluster, "dev"), (.switchContext, "dev"),
       (.ensureNamespace, "dev"), (.installOrUpgrade, "dev")] :=
  ⟨rfl, rfl, deploy_install_step_order stEmpty "dev" "nur-dev" "values-dev.yaml" "dev" rfl rfl⟩

/-- Claim C3: after a successful ensure-cluster, a second ensure-cluster for
the same name never errors and issues no duplicate create request. -/
theorem ensure_cluster_twice_idempotent (s : St) (name : String)
    (h : (ensureClusterStep s name).err = none) :
    (ensureClusterStep (ensureClusterStep s name).st name).err = none ∧
    Ev.eff (.createCluster name) ∉
      (ensureClusterStep (ensureClusterStep s name).st name).trace := by
  by_cases hm : name ∈ s.clusters
  · simp [ensureClusterStep, cluster_exists, hm]
  · by_cases hf : name ∈ s.createFails
    · exfalso
      revert h
      simp [ensureClusterStep, cluster_exists, hm, hf]
    · simp [ensureClusterStep, cluster_exists, hm, hf]

/-- Claim C3, witness: creating `nur-dev` in the empty world, then ensuring
it again. -/
theorem ensure_cluster_twice_idempotent_witness :
    (ensureClusterStep stEmpty "nur-dev").err = none ∧
    ((ensureClusterStep (ensureClusterStep stEmpty "nur-dev").st "nur-dev").err = none ∧
     Ev.eff (.createCluster "nur-dev") ∉
       (ensureClusterStep (ensureClusterStep stEmpty "nur-dev").st "nur-dev").trace) :=
  ⟨by decide, ensure_cluster_twice_idempotent stEmpty "nur-dev" (by decide)⟩

/-- Claim C7: the InstallOrUpgrade step first queries release existence
(`helm list`), then issues exactly one request — an upgrade when the
release exists, an install otherwise — carrying the release name, the
values file, the namespace, and `--wait`. -/
theorem install_or_upgrade_probe_then_act (s : St) (env values ns : String) :
    (installOrUpgradeStep s env values ns).trace =
      [.eff (.listReleases ns),
       .eff (if (curCluster s, ns, releaseName env) ∈ s.releases
             then Eff.upgrade (releaseName env) values ns true
             else Eff.install (releaseName env) values ns true)] := by
  simp only [installOrUpgradeStep]
  split_ifs with h1 h2 h3 <;> simp [h1]

/-- Claim C9: planning is deterministic — for the deploy commands, two runs
from any two worlds (absent injected failures) emit the very same step
sequence, the one `planSteps` commits to, independent of external state. -/
theorem plan_deterministic (arg : String) (s t : St)
    (ha : arg = "dev" ∨ arg = "prd" ∨ arg = "all")
    (hps : prereqOk s = true) (hcs : s.createFails = []) (hrs : s.relFails = [])
    (hpt : prereqOk t = true) (hct : t.createFails = []) (hrt : t.relFails = []) :
    stepsOf (main arg s).trace = planSteps arg ∧
    stepsOf (main arg s).trace = stepsOf (main arg t).trace := by
  have h1 := main_steps_plan arg s ha hps hcs hrs
  have h2 := main_steps_plan arg t ha hpt hct hrt
  exact ⟨h1.1, h1.1.trans h2.1.symm⟩

/-- Claim C9, witness: `deploy all` from the empty world and from a world
where the dev cluster already exists emit the same step sequence. -/
theorem plan_deterministic_witness :
    ("all" = "dev" ∨ "all" = "prd" ∨ "all" = "all") ∧
    prereqOk stEmpty = true ∧ prereqOk sDevOnly = true ∧
    (stepsOf (main "all" stEmpty).trace = planSteps "all" ∧
     stepsOf (main "all" stEmpty).trace = stepsOf (main "all" sDevOnly).trace) :=
  ⟨Or.inr (Or.inr rfl), rfl, rfl,
    plan_deterministic "all" stEmpty sDevOnly (Or.inr (Or.inr rfl))
      rfl rfl rfl rfl rfl rfl⟩

/-- Claim C10: for every command, including `help` and `status`, the three
prerequisite checks run before the case dispatch: a missing binary makes
the process exit 1 with no effect on the external world. -/
theorem prereq_checked_before_dispatch (arg : String) (s : St)
    (h : s.hasHelm = false ∨ s.hasKind = false ∨ s.hasKubectl = false) :
    main arg s = ⟨[], s, 1⟩ :=
  main_prereq_missing arg s h

/-- Claim C10, witness: `status` with helm missing does nothing and exits 1. -/
theorem prereq_checked_before_dispatch_witness :
    (sNoHelm.hasHelm = false ∨ sNoHelm.hasKind = false ∨
      sNoHelm.hasKubectl = false) ∧
    main "status" sNoHelm = ⟨[], sNoHelm, 1⟩ :=
  ⟨Or.inl rfl, prereq_checked_before_dispatch "status" sNoHelm (Or.inl rfl)⟩

/-- Claim C4: when the release of an environment does not exist at teardown
time, that iteration of `clean_deployments` never fails, issues no
uninstall request, and its outcome is one of the two Skipped outcomes. -/
theorem clean_missing_release_skipped (s : St) (env : String)
    (h : ("nur-" ++ env, env, releaseName env) ∉ s.releases) :
    (cleanOneEnv s env).1.err = none ∧
    (∀ rel ns, Ev.eff (.uninstall rel ns) ∉ (cleanOneEnv s env).1.trace) ∧
    ((cleanOneEnv s env).2 = .skippedNoRelease ∨
     (cleanOneEnv s env).2 = .skippedNoCluster) := by
  by_cases hm : ("nur-" ++ env) ∈ s.clusters
  · simp [cleanOneEnv, cluster_exists, switchContextStep, curCluster, hm, h]
  · simp [cleanOneEnv, cluster_exists, hm]

/-- Claim C4, witness: cleaning dev when the cluster exists but holds no
release. -/
theorem clean_missing_release_skipped_witness :
    ("nur-dev", "dev", releaseName "dev") ∉ sDevOnly.releases ∧
    ((cleanOneEnv sDevOnly "dev").1.err = none ∧
     Ev.eff (.uninstall "echo-server-dev" "dev") ∉ (cleanOneEnv sDevOnly "dev").1.trace ∧
     ((cleanOneEnv sDevOnly "dev").2 = .skippedNoRelease ∨
      (cleanOneEnv sDevOnly "dev").2 = .skippedNoCluster)) := by
  have h := clean_missing_release_skipped sDevOnly "dev" (by decide)
  exact ⟨by decide, h.1, h.2.1 "echo-server-dev" "dev", h.2.2⟩

/-- Claim C6: when an environment's cluster does not exist, `show_status`
reports `{clusterExists := false, releaseExists := false}` for it, with no
release-manager call, no context switch, and no namespace query for that
environment. -/
theorem status_missing_cluster_short_circuit (s : St) (env : String)
    (henv : env = "dev" ∨ env = "prd")
    (h : ("nur-" ++ env) ∉ s.clusters) :
    (env, false, false) ∈ (show_status s).2.2 ∧
    Ev.eff (.listReleases env) ∉ (show_status s).1 ∧
    Ev.eff (.useContext ("kind-nur-" ++ env)) ∉ (show_status s).1 ∧
    (∀ ns, Ev.eff (.getNamespace ns) ∉ (show_status s).1) := by
  rcases henv with henv | henv <;> subst henv
  · by_cases hp : ("nur-prd" : String) ∈ s.clusters <;>
      by_cases hq : (("nur-prd", "prd", "echo-server-prd") :
          String × String × String) ∈ s.releases <;>
      simp_all [show_status, statusOneEnv, cluster_exists, switchContextStep,
        curCluster, releaseName]
  · by_cases hp : ("nur-dev" : String) ∈ s.clusters <;>
      by_cases hq : (("nur-dev", "dev", "echo-server-dev") :
          String × String × String) ∈ s.releases <;>
      simp_all [show_status, statusOneEnv, cluster_exists, switchContextStep,
        curCluster, releaseName]

/-- Claim C6, witness: status in the world where only the dev cluster
exists short-circuits for prd. -/
theorem status_missing_cluster_short_circuit_witness :
    ("prd" = "dev" ∨ ("prd" : String) = "prd") ∧
    ("nur-prd" : String) ∉ sDevOnly.clusters ∧
    (("prd", false, false) ∈ (show_status sDevOnly).2.2 ∧
     Ev.eff (.listReleases "prd") ∉ (show_status sDevOnly).1 ∧
     Ev.eff (.useContext "kind-nur-prd") ∉ (show_status sDevOnly).1 ∧
     Ev.eff (.getNamespace "prd") ∉ (show_status sDevOnly).1) := by
  have h := status_missing_cluster_short_circuit sDevOnly "prd"
    (Or.inr rfl) (by decide)
  exact ⟨Or.inr rfl, by decide, h.1, h.2.1, by simpa using h.2.2.1, h.2.2.2 "prd"⟩

/-- Claim C5 is refuted at a concrete input: `show_status` issues a
`kubectl config use-context` request and changes the current context. -/
theorem status_read_only_refuted :
    Ev.eff (.useContext "kind-nur-dev") ∈ (show_status sDevOnly).1 ∧
    (show_status sDevOnly).2.1.current ≠ sDevOnly.current := by decide

/-- Claim C5 (amended): `show_status` issues no create, install, upgrade,
or uninstall request and leaves clusters, namespaces and releases
unchanged, but it does switch the kubectl context, so the current context
may differ afterwards. -/
theorem status_mutates_only_context (s : St) :
    ((show_status s).1.all fun e => !(mutatingEv e)) = true ∧
    (show_status s).2.1.clusters = s.clusters ∧
    (show_status s).2.1.namespaces = s.namespaces ∧
    (show_status s).2.1.releases = s.releases := by
  simp only [show_status, statusOneEnv, cluster_exists, switchContextStep,
    curCluster, releaseName]
  split_ifs <;> simp [mutatingEv, mutating]

/-- Claim C1 is refuted at a concrete input: during `deploy all`, a failing
dev step (`kind create cluster` fails) aborts the whole run before any prd
step executes. -/
theorem deploy_all_isolation_refuted :
    (main "all" sDevCreateFail).exit = 1 ∧
    Ev.step .ensureCluster "dev" ∈ (main "all" sDevCreateFail).trace ∧
    Ev.step .ensureCluster "prd" ∉ (main "all" sDevCreateFail).trace ∧
    Ev.step .switchContext "prd" ∉ (main "all" sDevCreateFail).trace ∧
    Ev.step .ensureNamespace "prd" ∉ (main "all" sDevCreateFail).trace ∧
    Ev.step .installOrUpgrade "prd" ∉ (main "all" sDevCreateFail).trace := by
  decide

/-- Claim C1 (amended): during `deploy all`, a failed step in the dev
environment propagates past the environment boundary (`set -e`): the run
stops with the failing command's exit status and no prd step executes. -/
theorem deploy_all_failure_aborts_run (s : St) (c : Nat)
    (hp : prereqOk s = true)
    (hd : (deploy_environment s "dev" "nur-dev" "values-dev.yaml" "dev").err = some c) :
    (main "all" s).trace =
      (deploy_environment s "dev" "nur-dev" "values-dev.yaml" "dev").trace ∧
    (main "all" s).exit = c ∧
    ∀ k : StepKind, Ev.step k "prd" ∉ (main "all" s).trace := by
  simp only [prereqOk, Bool.and_eq_true] at hp
  obtain ⟨⟨h1, h2⟩, h3⟩ := hp
  simp only [main, h1, h2, h3, Bool.not_true, Bool.false_eq_true, if_false,
    reduceIte]
  rw [hd]
  refine ⟨rfl, rfl, ?_⟩
  intro k hk
  have := deploy_step_env s "dev" "nur-dev" "values-dev.yaml" "dev" hk
  simp at this

/-- Claim C1 (amended), witness: concrete aborted `deploy all` run. -/
theorem deploy_all_failure_aborts_run_witness :
    prereqOk sDevCreateFail = true ∧
    (deploy_environment sDevCreateFail "dev" "nur-dev" "values-dev.yaml" "dev").err
      = some 1 ∧
    (main "all" sDevCreateFail).trace =
      (deploy_environment sDevCreateFail "dev" "nur-dev" "values-dev.yaml" "dev").trace ∧
    (main "all" sDevCreateFail).exit = 1 ∧
    Ev.step .ensureCluster "prd" ∉ (main "all" sDevCreateFail).trace := by
  have h := deploy_all_failure_aborts_run sDevCreateFail 1 (by decide) (by decide)
  exact ⟨by decide, by decide, h.1, h.2.1, h.2.2 .ensureCluster⟩

/-- Claim C8 is refuted at concrete inputs: a missing prerequisite exits
with status 1 (not 2), and a failed environment step exits with the
failing command's status (here 3), not necessarily 1. -/
theorem exit_codes_refuted :
    (main "dev" sNoHelm).exit = 1 ∧ ¬(main "dev" sNoHelm).exit = 2 ∧
    (main "dev" sFail3).exit = 3 ∧ ¬(main "dev" sFail3).exit = 1 := by
  decide

/-- Claim C8 (amended): for every command invocation (`deploy dev|prd|all`,
`status`, `clean`), the process exit status is 0 when the command body
completes with no failed step, and when an environment step fails with
status `c` the process exits with exactly that failing command's status
`c`; a missing prerequisite binary is detected at startup and the process
exits 1 (not 2) before any planning or deployment action. -/
theorem exit_code_spec (arg : String) (s : St) :
    ((s.hasHelm = false ∨ s.hasKind = false ∨ s.hasKubectl = false) →
      main arg s = ⟨[], s, 1⟩) ∧
    (prereqOk s = true →
      (arg = "dev" ∨ arg = "prd" ∨ arg = "all" ∨ arg = "status" ∨ arg = "clean") →
      (bodyErr arg s = none → (main arg s).exit = 0) ∧
      (∀ c, bodyErr arg s = some c → (main arg s).exit = c)) := by
  refine ⟨main_prereq_missing arg s, ?_⟩
  intro hp ha
  simp only [prereqOk, Bool.and_eq_true] at hp
  obtain ⟨⟨h1, h2⟩, h3⟩ := hp
  rcases ha with ha | ha | ha | ha | ha <;> subst ha <;>
    simp only [main, bodyErr, h1, h2, h3, Bool.not_true, Bool.false_eq_true,
      if_false, reduceIte]
  · cases herr : (deploy_environment s "dev" "nur-dev" "values-dev.yaml" "dev").err <;>
      simp [herr]
  · cases herr : (deploy_environment s "prd" "nur-prd" "values-prd.yaml" "prd").err <;>
      simp [herr]
  · cases herr : (deploy_environment s "dev" "nur-dev" "values-dev.yaml" "dev").err with
    | none =>
      cases herr2 : (deploy_environment (deploy_environment s "dev" "nur-dev"
          "values-dev.yaml" "dev").st "prd" "nur-prd" "values-prd.yaml" "prd").err <;>
        simp [herr, herr2]
    | some c => simp [herr]
  · rcases hss : show_status s with ⟨t, s1, rep⟩
    simp [hss]
  · cases herr : (clean_deployments s).err <;> simp [herr]

/-- Claim C8 (amended), witness: concrete runs exercising the
missing-prerequisite exit, a full-success exit 0, and a failed step whose
status 3 becomes the process exit status. -/
theorem exit_code_spec_witness :
    (sNoHelm.hasHelm = false ∨ sNoHelm.hasKind = false ∨
      sNoHelm.hasKubectl = false) ∧
    main "clean" sNoHelm = ⟨[], sNoHelm, 1⟩ ∧
    (prereqOk stEmpty = true ∧ bodyErr "dev" stEmpty = none ∧
      (main "dev" stEmpty).exit = 0) ∧
    (prereqOk sFail3 = true ∧ bodyErr "dev" sFail3 = some 3 ∧
      (main "dev" sFail3).exit = 3) :=
  ⟨Or.inl rfl, (exit_code_spec "clean" sNoHelm).1 (Or.inl rfl),
    ⟨rfl, by decide,
      ((exit_code_spec "dev" stEmpty).2 rfl (Or.inl rfl)).1 (by decide)⟩,
    ⟨rfl, by decide,
      ((exit_code_spec "dev" sFail3).2 rfl (Or.inl rfl)).2 3 (by decide)⟩⟩

end DeploySh
